import Mathlib

/-!
# VoiceToast: change detection, notification and settings merge

A shallow embedding of `src/VoiceToast.plugin.js`.

* The module-level variables `prevVoiceStates`, `prevSelectedChannelId`,
  `prevSelfMute`, `prevSelfDeaf` become the fields of `Tracking`; the two
  store callbacks become functions from the host's current answers and a
  `Tracking` to the next `Tracking` and the list of `notify(...)` calls made,
  in call order.
* The host application (the Discord stores reached through `BdApi`) is the
  record `Host` of query answers.
* Identifiers are Discord snowflakes: decimal strings of a natural number.
  Such a string is never empty (so it is truthy) and never names a property
  of `Object.prototype`; they are modelled by the number itself.
* A per-occupant voice state is a host record object, hence truthy: the
  tests `!prev[uid]` and `!current[uid]` are key-absence tests.
* A JavaScript exception is an `Except.error`.
-/

namespace VoiceToast

/-! ## Data model -/

/-- Snowflake of a user. -/
abbrev UserId := Nat

/-- Snowflake of a channel. -/
abbrev ChannelId := Nat

/-- Snowflake of a guild. -/
abbrev GuildId := Nat

/-- What `SelectedChannelStore.getVoiceChannelId()` can answer, and what
`prevSelectedChannelId` can hold: `null`, `undefined`, or a channel id.
The source compares two of them with `!==`, which tells all three apart. -/
inductive ChannelRef
  | null
  | undefined
  | id (c : ChannelId)
  deriving DecidableEq, Repr

/-- JavaScript truthiness of a channel reference (`selected ? .. : ..`,
`!selected`): only an id is truthy. -/
def ChannelRef.truthy : ChannelRef → Bool
  | .id _ => true
  | _ => false

/-- Opaque per-occupant voice state record of the host. -/
structure VoiceState where
  raw : Nat
  deriving DecidableEq, Repr

/-- A voice roster object: own enumerable properties in enumeration order,
keyed by user id. An object has each key once. -/
structure Roster where
  entries : List (UserId × VoiceState)
  nodup : (entries.map Prod.fst).Nodup
  deriving DecidableEq

/-- The object literal `{}`. -/
def Roster.empty : Roster := ⟨[], List.nodup_nil⟩

/-- `Object.keys(r)`. -/
def Roster.keys (r : Roster) : List UserId := r.entries.map Prod.fst

/-- Property read `r[uid]`; `none` is `undefined`. -/
def Roster.get (r : Roster) (uid : UserId) : Option VoiceState :=
  r.entries.lookup uid

/-- Truthiness of `r[uid]`: a voice state is an object, so the read is
truthy exactly when the key is there. -/
def Roster.has (r : Roster) (uid : UserId) : Bool := (r.get uid).isSome

/-- Object spread `{ ...x }` of a roster query answer; spreading
`undefined` gives `{}`. -/
def spread : Option Roster → Roster
  | some r => r
  | none => Roster.empty

/-- A user record of `UserStore.getUser`. -/
structure User where
  username : Option String
  globalName : Option String
  bot : Bool
  deriving DecidableEq, Repr

/-- A channel record of `ChannelStore.getChannel`. `isDM`, `isGroupDM` and
`isGuildStageVoice` are the truthiness of the optional calls
`channel.isDM?.()`, ..; `guildId` is `channel.getGuildId?.()`. -/
structure Channel where
  name : String
  guildId : Option GuildId
  isDM : Bool
  isGroupDM : Bool
  isGuildStageVoice : Bool
  deriving DecidableEq, Repr

/-- A guild member record of `GuildMemberStore.getMember`. -/
structure Member where
  nick : Option String
  deriving DecidableEq, Repr

/-- The answers of the host stores at one instant. -/
structure Host where
  /-- The value of `UserStore.getCurrentUser().id`. -/
  currentUserId : UserId
  /-- The value of `SelectedChannelStore.getVoiceChannelId()`. -/
  getVoiceChannelId : ChannelRef
  /-- The value of `VoiceStateStore.getVoiceStatesForChannel(c)`; `none` is `undefined`. -/
  getVoiceStatesForChannel : ChannelId → Option Roster
  /-- The value of `MediaEngineStore.isSelfMute?.()`; `none` is `undefined`. -/
  isSelfMute : Option Bool
  /-- The value of `MediaEngineStore.isSelfDeaf?.()`; `none` is `undefined`. -/
  isSelfDeaf : Option Bool
  /-- The value of `UserStore.getUser(id)`. -/
  getUser : UserId → Option User
  /-- The value of `ChannelStore.getChannel(c)`. -/
  getChannel : ChannelRef → Option Channel
  /-- The value of `GuildMemberStore.getMember(guildId, userId)`. -/
  getMember : Option GuildId → UserId → Option Member
  /-- Whether the voice-state store has `addChangeListener` or `addReactChangeListener`. -/
  voiceListenable : Bool
  /-- Whether the selected-channel store has one of the two subscribe methods. -/
  selectedListenable : Bool
  /-- Whether the media-engine store has one of the two subscribe methods. -/
  mediaListenable : Bool

/-- One call `notify(type, userId, channelId)`. -/
structure NotifyCall where
  type : String
  userId : UserId
  channelId : ChannelRef
  deriving DecidableEq, Repr

/-- The module-level tracking variables. -/
structure Tracking where
  prevVoiceStates : Roster
  prevSelectedChannelId : ChannelRef
  prevSelfMute : Option Bool
  prevSelfDeaf : Option Bool
  deriving DecidableEq

/-- The values the module-level `let` declarations give. -/
def Tracking.initial : Tracking :=
  { prevVoiceStates := Roster.empty
    prevSelectedChannelId := .null
    prevSelfMute := none
    prevSelfDeaf := none }

/-- A JavaScript exception. -/
inductive JSError
  | typeError
  deriving DecidableEq, Repr

/-! ## Store-based tracking -/

/-- The function `onVoiceStatesChanged()`. `Object.keys(current)` throws a
`TypeError` when `current` is `undefined`; the spread on the channel-switch
path does not. -/
def onVoiceStatesChanged (h : Host) (st : Tracking) :
    Except JSError (Tracking × List NotifyCall) :=
  let selfId := h.currentUserId
  let selected := h.getVoiceChannelId
  if selected ≠ st.prevSelectedChannelId then
    .ok ({ st with
            prevSelectedChannelId := selected
            prevVoiceStates :=
              match selected with
              | .id c => spread (h.getVoiceStatesForChannel c)
              | _ => Roster.empty }, [])
  else
    match selected with
    | .id c =>
      match h.getVoiceStatesForChannel c with
      | none => .error .typeError
      | some current =>
        let prev := st.prevVoiceStates
        let joins := (current.keys.filter fun uid => !prev.has uid && uid != selfId).map
          fun uid => NotifyCall.mk "join" uid selected
        let leaves := (prev.keys.filter fun uid => !current.has uid && uid != selfId).map
          fun uid => NotifyCall.mk "leave" uid selected
        .ok ({ st with prevVoiceStates := current }, joins ++ leaves)
    | _ => .ok (st, [])

/-- The function `onMediaEngineChanged()`. -/
def onMediaEngineChanged (h : Host) (st : Tracking) : Tracking × List NotifyCall :=
  let selfId := h.currentUserId
  let channelId := h.getVoiceChannelId
  let isMute := h.isSelfMute.getD false
  let isDeaf := h.isSelfDeaf.getD false
  let muteCalls :=
    if st.prevSelfMute ≠ none ∧ some isMute ≠ st.prevSelfMute then
      [NotifyCall.mk (if isMute then "mute" else "unmute") selfId channelId]
    else []
  let deafCalls :=
    if st.prevSelfDeaf ≠ none ∧ some isDeaf ≠ st.prevSelfDeaf then
      [NotifyCall.mk (if isDeaf then "deafen" else "undeafen") selfId channelId]
    else []
  ({ st with prevSelfMute := some isMute, prevSelfDeaf := some isDeaf },
    muteCalls ++ deafCalls)

/-- The function `addStoreListener(store, fn)`: whether a listener was attached. -/
def addStoreListener (listenable : Bool) : Bool := listenable

/-- What `start()` leaves behind: the tracking variables, the three
`_voiceOk`, `_selOk`, `_mediaOk` flags and the message of its toast. -/
structure Started where
  tracking : Tracking
  voiceOk : Bool
  selOk : Bool
  mediaOk : Bool
  toastMsg : String

/-- The method `start()`, on the tracking variables (its `Settings.load()` is
`SettingsStore.load` below and touches none of them). -/
def start (h : Host) (_st : Tracking) : Started :=
  let prevSelectedChannelId := h.getVoiceChannelId
  let prevVoiceStates :=
    match prevSelectedChannelId with
    | .id c => spread (h.getVoiceStatesForChannel c)
    | _ => Roster.empty
  let voiceOk := addStoreListener h.voiceListenable
  let selOk := addStoreListener h.selectedListenable
  let mediaOk := addStoreListener h.mediaListenable
  { tracking :=
      { prevVoiceStates := prevVoiceStates
        prevSelectedChannelId := prevSelectedChannelId
        prevSelfMute := some (h.isSelfMute.getD false)
        prevSelfDeaf := some (h.isSelfDeaf.getD false) }
    voiceOk := voiceOk
    selOk := selOk
    mediaOk := mediaOk
    toastMsg :=
      if !voiceOk && !selOk then
        "VoiceToast: VoiceStateStore listener not available (Discord update)."
      else "VoiceToast enabled" }

/-- The method `stop()`, on the tracking variables. -/
def stop (_st : Tracking) : Tracking :=
  { prevVoiceStates := Roster.empty
    prevSelectedChannelId := .null
    prevSelfMute := none
    prevSelfDeaf := none }

/-! ## Strings -/

/-- The UTF-16 code units of a string, which is what a JavaScript string is
made of: a character above U+FFFF is a surrogate pair. -/
def toUTF16 (s : String) : List Nat :=
  s.data.flatMap fun c =>
    if c.toNat < 0x10000 then [c.toNat]
    else [0xD800 + (c.toNat - 0x10000) / 0x400, 0xDC00 + (c.toNat - 0x10000) % 0x400]

/-- A high (leading) surrogate code unit. -/
def isHighSurrogate (u : Nat) : Bool := 0xD800 ≤ u && u < 0xDC00

/-- A low (trailing) surrogate code unit. -/
def isLowSurrogate (u : Nat) : Bool := 0xDC00 ≤ u && u < 0xE000

/-- The characters a sequence of UTF-16 code units shows, read left to
right; `pending` is a high surrogate still waiting for its partner. A
surrogate without its partner, which a Lean string cannot hold, shows as
U+FFFD. -/
def fromUTF16From : Option Nat → List Nat → List Char
  | none, [] => []
  | some _, [] => [Char.ofNat 0xFFFD]
  | none, u :: rest =>
    if isHighSurrogate u then fromUTF16From (some u) rest
    else if isLowSurrogate u then Char.ofNat 0xFFFD :: fromUTF16From none rest
    else Char.ofNat u :: fromUTF16From none rest
  | some hi, v :: rest =>
    if isLowSurrogate v then
      Char.ofNat (0x10000 + (hi - 0xD800) * 0x400 + (v - 0xDC00)) :: fromUTF16From none rest
    else if isHighSurrogate v then Char.ofNat 0xFFFD :: fromUTF16From (some v) rest
    else Char.ofNat 0xFFFD :: Char.ofNat v :: fromUTF16From none rest

/-- The characters a sequence of UTF-16 code units shows. -/
def fromUTF16 (us : List Nat) : List Char := fromUTF16From none us

/-- The code units the class `[a-zA-Z0-9぀-ヿ一-鿿가-힯]`
matches; the regular expression of `processName` is its complement, and has
no `u` flag, so it runs over code units. -/
def nameUnitKept (u : Nat) : Bool :=
  (0x61 ≤ u && u ≤ 0x7A) || (0x41 ≤ u && u ≤ 0x5A) || (0x30 ≤ u && u ≤ 0x39) ||
  (0x3040 ≤ u && u ≤ 0x30FF) || (0x4E00 ≤ u && u ≤ 0x9FFF) || (0xAC00 ≤ u && u ≤ 0xD7AF)

/-- The function `processName(n)` for a string `n`, with the value of
`Settings.current.filterNames` as first argument. -/
def processName (filterNames : Bool) (n : String) : String :=
  if filterNames then
    String.mk (fromUTF16 ((toUTF16 n).map fun u => if nameUnitKept u then u else 0x20))
  else n

/-- The abstract operation GetSubstitution of ECMAScript for a string
pattern (no captures): in the replacement text `$$` is a dollar, `$&` the
matched text, dollar-backtick the text before the match, dollar-apostrophe
the text after it, and every other character stands for itself. The flag
says that the character just passed was a dollar not yet accounted for. -/
def getSubstitutionFrom (matched pre post : List Char) : Bool → List Char → List Char
  | false, [] => []
  | true, [] => ['$']
  | false, c :: t =>
    if c = '$' then getSubstitutionFrom matched pre post true t
    else c :: getSubstitutionFrom matched pre post false t
  | true, d :: t =>
    if d = '$' then '$' :: getSubstitutionFrom matched pre post false t
    else if d = '&' then matched ++ getSubstitutionFrom matched pre post false t
    else if d.toNat = 0x60 then pre ++ getSubstitutionFrom matched pre post false t
    else if d.toNat = 0x27 then post ++ getSubstitutionFrom matched pre post false t
    else '$' :: d :: getSubstitutionFrom matched pre post false t

/-- The replacement text for one match: `matched` is the match, `pre` the
text before it and `post` the text after it. -/
def getSubstitution (matched pre post rep : List Char) : List Char :=
  getSubstitutionFrom matched pre post false rep

/-- The scan of `String.prototype.replaceAll` with a string pattern: `pre`
is the text already passed, `skip` the number of characters of the current
match still to pass. Matches are found left to right and do not overlap. -/
def replaceAllFrom (pat rep : List Char) : Nat → List Char → List Char → List Char
  | _, pre, [] => if pat.isEmpty then getSubstitution pat pre [] rep else []
  | skip + 1, pre, c :: rest => replaceAllFrom pat rep skip (pre ++ [c]) rest
  | 0, pre, c :: rest =>
    if pat.isPrefixOf (c :: rest) then
      getSubstitution pat pre ((c :: rest).drop pat.length) rep ++
        (if pat.isEmpty then c :: replaceAllFrom pat rep 0 (pre ++ [c]) rest
         else replaceAllFrom pat rep (pat.length - 1) (pre ++ [c]) rest)
    else c :: replaceAllFrom pat rep 0 (pre ++ [c]) rest

/-- The call `s.replaceAll(pat, rep)` with two strings. -/
def replaceAll (s pat rep : String) : String :=
  String.mk (replaceAllFrom pat.data rep.data 0 [] s.data)

/-! ## Settings as `notify` reads them -/

/-- One entry of `Settings.current.notifs`: `enabled` is the truthiness of
its `enabled` property, `message` the value of `String(n.message || "")`. -/
structure NotificationRule where
  enabled : Bool
  message : String
  deriving DecidableEq, Repr

/-- The object `Settings.current.toast`. -/
structure ToastConfig where
  type : String
  timeout : Nat
  deriving DecidableEq, Repr

/-- The object `Settings.current` as `notify` and `toast` read it; the three
flags are the truthiness of the properties. -/
structure Settings where
  filterNames : Bool
  filterBots : Bool
  filterStages : Bool
  toast : ToastConfig
  notifs : List (String × NotificationRule)
  unknownChannel : String
  deriving DecidableEq, Repr

/-- The constant `DEFAULTS`, read as a `Settings`. -/
def Settings.defaults : Settings :=
  { filterNames := false
    filterBots := false
    filterStages := true
    toast := { type := "info", timeout := 3000 }
    notifs :=
      [ ("mute", ⟨true, "靜音"⟩),
        ("unmute", ⟨true, "取消靜音"⟩),
        ("deafen", ⟨true, "拒聽"⟩),
        ("undeafen", ⟨true, "取消拒聽"⟩),
        ("join", ⟨true, "$user 加入了 $channel"⟩),
        ("leave", ⟨true, "$user 離開了 $channel"⟩),
        ("joinSelf", ⟨true, "你 加入了 $channel"⟩),
        ("moveSelf", ⟨true, "你 被移動至 $channel"⟩),
        ("leaveSelf", ⟨true, "你 離開了 $channel"⟩) ]
    unknownChannel := "The call" }

/-- One call `BdApi.UI.showToast(msg, { type, timeout })`. -/
structure Toast where
  msg : String
  type : String
  timeout : Nat
  deriving DecidableEq, Repr

/-- The function `toast(msg)`: the `showToast` calls it makes. -/
def toast (s : Settings) (msg : String) : List Toast :=
  [{ msg := msg, type := s.toast.type, timeout := s.toast.timeout }]

/-- The message `notify` builds from the rule's template: the three chained
`replaceAll` calls, in the order of the source. -/
def notifyMessage (filterNames : Bool) (template nick channelName username : String) : String :=
  replaceAll
    (replaceAll
      (replaceAll template "$user" (processName filterNames nick))
      "$channel" (processName filterNames channelName))
    "$username" (processName filterNames username)

/-- The function `notify(type, userId, channelId)`: the `showToast` calls it makes. -/
def notify (s : Settings) (h : Host) (type : String) (userId : UserId)
    (channelId : ChannelRef) : List Toast :=
  match s.notifs.lookup type with
  | none => []
  | some n =>
    if !n.enabled then []
    else
      let user := h.getUser userId
      let channel := h.getChannel channelId
      if (s.filterBots && (user.map (·.bot)).getD false) ||
          (s.filterStages && (channel.map (·.isGuildStageVoice)).getD false) then []
      else
        let nick :=
          (((h.getMember (channel.bind (·.guildId)) userId).bind (·.nick)) <|>
            (user.bind (·.globalName)) <|> (user.bind (·.username))).getD "User"
        let channelName :=
          match channel with
          | none => s.unknownChannel
          | some ch => if ch.isDM || ch.isGroupDM then s.unknownChannel else ch.name
        let msg := notifyMessage s.filterNames n.message nick channelName
          ((user.bind (·.username)).getD "User")
        toast s msg

/-! ## Settings store -/

/-- A value of the persisted settings document. -/
inductive JSON
  | null
  | bool (b : Bool)
  | num (n : Int)
  | str (s : String)
  | arr (xs : List JSON)
  | obj (kvs : List (String × JSON))

/-- The properties of an object, in enumeration order. An object has each
key once. -/
abbrev Obj := List (String × JSON)

/-- Property read `o[k]`; `none` is `undefined`. -/
def Obj.get (o : Obj) (k : String) : Option JSON := o.lookup k

/-- Definition of the property `k` on an object under construction: an
existing key keeps its place and takes the new value, a new key goes last. -/
def Obj.set : Obj → String → JSON → Obj
  | [], k, v => [(k, v)]
  | (k1, v1) :: rest, k, v =>
    if k1 = k then (k, v) :: rest else (k1, v1) :: Obj.set rest k v

/-- The spread `...source` inside an object literal whose properties so far
are `target`: each property of `source` is defined in turn. -/
def Obj.assign (target source : Obj) : Obj :=
  source.foldl (fun acc kv => Obj.set acc kv.1 kv.2) target

/-- JavaScript truthiness of a value. -/
def JSON.truthy : JSON → Bool
  | .null => false
  | .bool b => b
  | .num n => n != 0
  | .str s => s != ""
  | .arr _ => true
  | .obj _ => true

/-- The own enumerable properties a spread `...v` copies: the properties of
an object, the indexed elements of an array, the indexed code units of a
string, nothing for the rest. -/
def JSON.ownProps : JSON → Obj
  | .obj kvs => kvs
  | .arr xs => xs.enum.map fun ix => (toString ix.1, ix.2)
  | .str s => (toUTF16 s).enum.map fun iu => (toString iu.1, JSON.str (String.mk (fromUTF16 [iu.2])))
  | _ => []

/-- The spread `...v` of a value that may be `undefined`. -/
def JSON.ownPropsOpt : Option JSON → Obj
  | some v => v.ownProps
  | none => []

/-- Property read `v.toast` or `v.notifs` on a value: only an object can
have such a property. -/
def JSON.getProp : JSON → String → Option JSON
  | .obj kvs, k => Obj.get kvs k
  | _, _ => none

/-- The expression `x || {}`. -/
def JSON.orEmpty : Option JSON → JSON
  | some v => if v.truthy then v else .obj []
  | none => .obj []

/-- The constant `DEFAULTS`. -/
def DEFAULTS : Obj :=
  [ ("filterNames", .bool false),
    ("filterBots", .bool false),
    ("filterStages", .bool true),
    ("toast", .obj [("type", .str "info"), ("timeout", .num 3000)]),
    ("notifs", .obj
      [ ("mute", .obj [("enabled", .bool true), ("message", .str "靜音")]),
        ("unmute", .obj [("enabled", .bool true), ("message", .str "取消靜音")]),
        ("deafen", .obj [("enabled", .bool true), ("message", .str "拒聽")]),
        ("undeafen", .obj [("enabled", .bool true), ("message", .str "取消拒聽")]),
        ("join", .obj [("enabled", .bool true), ("message", .str "$user 加入了 $channel")]),
        ("leave", .obj [("enabled", .bool true), ("message", .str "$user 離開了 $channel")]),
        ("joinSelf", .obj [("enabled", .bool true), ("message", .str "你 加入了 $channel")]),
        ("moveSelf", .obj [("enabled", .bool true), ("message", .str "你 被移動至 $channel")]),
        ("leaveSelf", .obj [("enabled", .bool true), ("message", .str "你 離開了 $channel")]) ]),
    ("unknownChannel", .str "The call") ]

/-- The function `structuredClone`: a deep copy, the same value. -/
def structuredClone (v : Obj) : Obj := v

/-- The method `SettingsStore.load()`: the new `this.current`, from
`this.defaults` and the answer of `BdApi.Data.load` (`none` is `undefined`). -/
def SettingsStore.load (defaults : Obj) (loaded : Option JSON) : Obj :=
  let saved := JSON.orEmpty loaded
  let current := Obj.assign (Obj.assign [] (structuredClone defaults)) saved.ownProps
  let current := Obj.set current "toast"
    (.obj (Obj.assign (Obj.assign [] (JSON.ownPropsOpt (Obj.get defaults "toast")))
      (JSON.orEmpty (saved.getProp "toast")).ownProps))
  let current := Obj.set current "notifs"
    (.obj (Obj.assign (Obj.assign [] (JSON.ownPropsOpt (Obj.get defaults "notifs")))
      (JSON.orEmpty (saved.getProp "notifs")).ownProps))
  current

/-! ## Specification-side definitions -/

/-- The handler `onVoiceStatesChanged` invoked once per host state of a
sequence, with the `notify` calls of all invocations in order. -/
def onVoiceStatesChangedSeq : List Host → Tracking → Except JSError (Tracking × List NotifyCall)
  | [], st => .ok (st, [])
  | h :: hs, st =>
    match onVoiceStatesChanged h st with
    | .error e => .error e
    | .ok (st1, calls1) =>
      match onVoiceStatesChangedSeq hs st1 with
      | .error e => .error e
      | .ok (st2, calls2) => .ok (st2, calls1 ++ calls2)

/-- The participant set of a roster minus the local user. -/
def participants (r : Roster) (selfId : UserId) : Finset UserId :=
  r.keys.toFinset.erase selfId

/-- Replay of one event against a participant set: a join adds its
participant, a leave removes it. -/
def replayOne (p : Finset UserId) (e : NotifyCall) : Finset UserId :=
  if e.type = "join" then insert e.userId p
  else if e.type = "leave" then p.erase e.userId
  else p

/-- Replay of the events, in order, against a participant set. -/
def replay (calls : List NotifyCall) (p : Finset UserId) : Finset UserId :=
  calls.foldl replayOne p

/-- The string the specification gives for each UTF-16 code unit of a name
under the name filter, read per character: a kept character stays, any
other character of the Basic Multilingual Plane becomes one space, and a
character above U+FFFF, being two surrogate code units, becomes two. -/
def filterChar (c : Char) : List Char :=
  if c.toNat < 0x10000 then (if nameUnitKept c.toNat then [c] else [' '])
  else [' ', ' ']

/-! ## Worked inputs -/

/-- A host that reports the given selected channel, the given roster for
every channel, and the given mute and deafen answers; the local user is 1. -/
def sampleHost (selected : ChannelRef) (roster : Option Roster)
    (mute deaf : Option Bool) : Host :=
  { currentUserId := 1
    getVoiceChannelId := selected
    getVoiceStatesForChannel := fun _ => roster
    isSelfMute := mute
    isSelfDeaf := deaf
    getUser := fun _ => none
    getChannel := fun _ => none
    getMember := fun _ _ => none
    voiceListenable := true
    selectedListenable := true
    mediaListenable := true }

/-- The roster of the local user 1 and the users 10 and 11. -/
def rosterA : Roster := ⟨[(1, ⟨0⟩), (10, ⟨0⟩), (11, ⟨0⟩)], by decide⟩

/-- The roster of the local user 1 and the users 11 and 12. -/
def rosterB : Roster := ⟨[(1, ⟨0⟩), (11, ⟨0⟩), (12, ⟨0⟩)], by decide⟩

/-- The roster of the users 12 and 13, without the local user. -/
def rosterC : Roster := ⟨[(12, ⟨0⟩), (13, ⟨0⟩)], by decide⟩

/-- A host in which every user is Ann (username `ann01`, display name
`Ann`), every channel is the guild voice channel `General`, and no member
has a nickname. -/
def annHost : Host :=
  { currentUserId := 1
    getVoiceChannelId := .id 5
    getVoiceStatesForChannel := fun _ => none
    isSelfMute := none
    isSelfDeaf := none
    getUser := fun _ => some ⟨some "ann01", some "Ann", false⟩
    getChannel := fun _ => some ⟨"General", some 7, false, false, false⟩
    getMember := fun _ _ => none
    voiceListenable := true
    selectedListenable := true
    mediaListenable := true }

/-! # Theorems -/

/-! ## Lemmas on rosters and call lists -/

theorem Roster.has_iff (r : Roster) (uid : UserId) : r.has uid = true ↔ uid ∈ r.keys := by
  simp only [Roster.has, Roster.get, Roster.keys, List.lookup_isSome_iff, List.mem_map,
    beq_iff_eq]
  constructor
  · rintro ⟨kv, hkv, rfl⟩
    exact ⟨kv, hkv, rfl⟩
  · rintro ⟨kv, hkv, rfl⟩
    exact ⟨kv, hkv, rfl⟩

theorem Roster.keys_nodup (r : Roster) : r.keys.Nodup := r.nodup

theorem NotifyCall.mk_injective (t : String) (ch : ChannelRef) :
    Function.Injective fun uid : UserId => NotifyCall.mk t uid ch := by
  intro a b hab
  simpa using hab

/-- In the calls made for the filtered keys of an object, a call occurs once
when its user is a key that passes the filter, and not at all otherwise. -/
theorem count_calls (t : String) (ch : ChannelRef) (l : List UserId) (hl : l.Nodup)
    (P : UserId → Bool) (p : UserId) :
    ((l.filter P).map fun uid => NotifyCall.mk t uid ch).count ⟨t, p, ch⟩ =
      if p ∈ l ∧ P p = true then 1 else 0 := by
  have hcount := List.count_map_of_injective (l.filter P)
    (fun uid : UserId => NotifyCall.mk t uid ch) (NotifyCall.mk_injective t ch) p
  simp only at hcount
  rw [hcount]
  split_ifs with hp
  · exact List.count_eq_one_of_mem (hl.filter P) (List.mem_filter.mpr hp)
  · exact List.count_eq_zero_of_not_mem fun hmem => hp (List.mem_filter.mp hmem)

/-- A call of another type does not occur among the calls of type `t`. -/
theorem count_calls_other (t t2 : String) (ch : ChannelRef) (l : List UserId)
    (p : UserId) (ht : t2 ≠ t) :
    (l.map fun uid => NotifyCall.mk t uid ch).count ⟨t2, p, ch⟩ = 0 := by
  apply List.count_eq_zero_of_not_mem
  simp only [List.mem_map, not_exists, not_and]
  intro uid _ heq
  exact ht (congrArg NotifyCall.type heq).symm

/-- The same-channel step of `onVoiceStatesChanged`, in closed form. -/
theorem onVoiceStatesChanged_same (h : Host) (st : Tracking) (c : ChannelId)
    (current : Roster) (hsel : h.getVoiceChannelId = .id c)
    (htr : st.prevSelectedChannelId = .id c)
    (hcur : h.getVoiceStatesForChannel c = some current) :
    onVoiceStatesChanged h st = .ok ({ st with prevVoiceStates := current },
      ((current.keys.filter fun uid =>
          !st.prevVoiceStates.has uid && uid != h.currentUserId).map
            fun uid => NotifyCall.mk "join" uid (.id c)) ++
      ((st.prevVoiceStates.keys.filter fun uid =>
          !current.has uid && uid != h.currentUserId).map
            fun uid => NotifyCall.mk "leave" uid (.id c))) := by
  simp [onVoiceStatesChanged, hsel, htr, hcur]

/-- The channel-switch step of `onVoiceStatesChanged`, in closed form. -/
theorem onVoiceStatesChanged_switch (h : Host) (st : Tracking)
    (hne : h.getVoiceChannelId ≠ st.prevSelectedChannelId) :
    onVoiceStatesChanged h st = .ok ({ st with
      prevSelectedChannelId := h.getVoiceChannelId
      prevVoiceStates :=
        match h.getVoiceChannelId with
        | .id c => spread (h.getVoiceStatesForChannel c)
        | _ => Roster.empty }, []) := by
  simp [onVoiceStatesChanged, hne]

/-- With the roster query answering `undefined` on the same-channel path,
`Object.keys` throws. -/
theorem onVoiceStatesChanged_undefined (h : Host) (st : Tracking) (c : ChannelId)
    (hsel : h.getVoiceChannelId = .id c) (htr : st.prevSelectedChannelId = .id c)
    (hcur : h.getVoiceStatesForChannel c = none) :
    onVoiceStatesChanged h st = .error .typeError := by
  simp [onVoiceStatesChanged, hsel, htr, hcur]

/-- With the roster query answering the empty object on the same-channel
path, every participant of the snapshot but the local user gets a leave,
nobody a join, and the snapshot becomes empty. -/
theorem onVoiceStatesChanged_empty (h : Host) (st : Tracking) (c : ChannelId)
    (hsel : h.getVoiceChannelId = .id c) (htr : st.prevSelectedChannelId = .id c)
    (hcur : h.getVoiceStatesForChannel c = some Roster.empty) :
    onVoiceStatesChanged h st = .ok ({ st with prevVoiceStates := Roster.empty },
      (st.prevVoiceStates.keys.filter fun uid => uid != h.currentUserId).map
        fun uid => NotifyCall.mk "leave" uid (.id c)) := by
  rw [onVoiceStatesChanged_same h st c Roster.empty hsel htr hcur]
  simp [Roster.empty, Roster.keys, Roster.has, Roster.get]

/-! ## Channel switch (C1) -/

/-- C1. When the selected channel `B` the host reports differs from the
tracked channel `A` (either may be `null` or `undefined`), one invocation of
`onVoiceStatesChanged` returns normally, calls `notify` zero times, sets the
tracked channel to `B`, and replaces the snapshot with the roster the host
reports for `B`: that roster when `B` is a channel with a reported roster,
the empty mapping when the host reports none for it or when `B` is none.
This holds for every retained snapshot and whatever the rosters are. -/
theorem channel_switch_emits_nothing (h : Host) (st : Tracking)
    (hne : h.getVoiceChannelId ≠ st.prevSelectedChannelId) :
    ∃ st1, onVoiceStatesChanged h st = .ok (st1, []) ∧
      st1.prevSelectedChannelId = h.getVoiceChannelId ∧
      (∀ b r, h.getVoiceChannelId = .id b → h.getVoiceStatesForChannel b = some r →
        st1.prevVoiceStates = r) ∧
      (∀ b, h.getVoiceChannelId = .id b → h.getVoiceStatesForChannel b = none →
        st1.prevVoiceStates = Roster.empty) ∧
      (h.getVoiceChannelId.truthy = false → st1.prevVoiceStates = Roster.empty) := by
  refine ⟨_, onVoiceStatesChanged_switch h st hne, rfl, ?_, ?_, ?_⟩
  · intro b r hb hr
    simp [hb, hr, spread]
  · intro b hb hr
    simp [hb, hr, spread]
  · intro hf
    cases hsel : h.getVoiceChannelId <;> simp_all [ChannelRef.truthy]

/-- Witness of C1: tracked channel 5 with roster A retained, the host now
reports channel 6 with roster B. -/
theorem channel_switch_emits_nothing_witness :
    ∃ st1, onVoiceStatesChanged (sampleHost (.id 6) (some rosterB) none none)
        ⟨rosterA, .id 5, none, none⟩ = .ok (st1, []) ∧
      st1.prevSelectedChannelId = (sampleHost (.id 6) (some rosterB) none none).getVoiceChannelId ∧
      (∀ b r, (sampleHost (.id 6) (some rosterB) none none).getVoiceChannelId = .id b →
        (sampleHost (.id 6) (some rosterB) none none).getVoiceStatesForChannel b = some r →
        st1.prevVoiceStates = r) ∧
      (∀ b, (sampleHost (.id 6) (some rosterB) none none).getVoiceChannelId = .id b →
        (sampleHost (.id 6) (some rosterB) none none).getVoiceStatesForChannel b = none →
        st1.prevVoiceStates = Roster.empty) ∧
      ((sampleHost (.id 6) (some rosterB) none none).getVoiceChannelId.truthy = false →
        st1.prevVoiceStates = Roster.empty) :=
  channel_switch_emits_nothing (sampleHost (.id 6) (some rosterB) none none)
    ⟨rosterA, .id 5, none, none⟩ (by decide)

/-! ## Same-channel diff (C3) -/

/-- C3. When the selected channel the host reports equals the tracked channel
`c` and the host reports the roster `current` for it, one invocation of
`onVoiceStatesChanged` returns normally and: `notify("join", p, c)` is called
exactly once for each `p` in `current`, not in the snapshot and different
from the local user, and never for another `p`; `notify("leave", p, c)` is
called exactly once for each `p` in the snapshot, not in `current` and
different from the local user, and never for another `p`; every call made is
one of these joins or leaves; the snapshot becomes `current` and the tracked
channel stays `c`. -/
theorem same_channel_diff (h : Host) (st : Tracking) (c : ChannelId) (current : Roster)
    (hsel : h.getVoiceChannelId = .id c) (htr : st.prevSelectedChannelId = .id c)
    (hcur : h.getVoiceStatesForChannel c = some current) :
    ∃ st1 calls, onVoiceStatesChanged h st = .ok (st1, calls) ∧
      st1.prevVoiceStates = current ∧ st1.prevSelectedChannelId = .id c ∧
      (∀ p, calls.count ⟨"join", p, .id c⟩ =
        if p ∈ current.keys ∧ p ∉ st.prevVoiceStates.keys ∧ p ≠ h.currentUserId
        then 1 else 0) ∧
      (∀ p, calls.count ⟨"leave", p, .id c⟩ =
        if p ∈ st.prevVoiceStates.keys ∧ p ∉ current.keys ∧ p ≠ h.currentUserId
        then 1 else 0) ∧
      (∀ e ∈ calls, (e.type = "join" ∨ e.type = "leave") ∧ e.channelId = .id c ∧
        e.userId ≠ h.currentUserId) := by
  refine ⟨_, _, onVoiceStatesChanged_same h st c current hsel htr hcur, rfl, htr, ?_, ?_, ?_⟩
  · intro p
    rw [List.count_append, count_calls "join" (.id c) _ current.keys_nodup,
      count_calls_other "leave" "join" (.id c) _ p (by decide)]
    simp [← Roster.has_iff]
  · intro p
    rw [List.count_append, count_calls "leave" (.id c) _ st.prevVoiceStates.keys_nodup,
      count_calls_other "join" "leave" (.id c) _ p (by decide)]
    simp [← Roster.has_iff]
  · intro e he
    simp only [List.mem_append, List.mem_map, List.mem_filter] at he
    rcases he with ⟨uid, ⟨_, hp⟩, rfl⟩ | ⟨uid, ⟨_, hp⟩, rfl⟩ <;> simp_all

/-- Witness of C3: snapshot A and current roster B on channel 5: user 12
joins, user 10 leaves, and the local user 1 and the staying user 11 give no
call. -/
theorem same_channel_diff_witness :
    ∃ st1 calls, onVoiceStatesChanged (sampleHost (.id 5) (some rosterB) none none)
        ⟨rosterA, .id 5, none, none⟩ = .ok (st1, calls) ∧
      st1.prevVoiceStates = rosterB ∧ st1.prevSelectedChannelId = .id 5 ∧
      (∀ p, calls.count ⟨"join", p, .id 5⟩ =
        if p ∈ rosterB.keys ∧ p ∉ rosterA.keys ∧ p ≠ 1 then 1 else 0) ∧
      (∀ p, calls.count ⟨"leave", p, .id 5⟩ =
        if p ∈ rosterA.keys ∧ p ∉ rosterB.keys ∧ p ≠ 1 then 1 else 0) ∧
      (∀ e ∈ calls, (e.type = "join" ∨ e.type = "leave") ∧ e.channelId = .id 5 ∧
        e.userId ≠ 1) :=
  same_channel_diff (sampleHost (.id 5) (some rosterB) none none)
    ⟨rosterA, .id 5, none, none⟩ 5 rosterB rfl rfl rfl

/-! ## Roster query without an answer (C9) -/

/-- C9, the code at the failing input. The tracked and the selected channel
are both 5, the snapshot is roster A, and the roster query answers
`undefined`: the invocation ends in a `TypeError` (from `Object.keys`), no
leave is emitted and the snapshot is not emptied. -/
theorem undefined_roster_raises :
    onVoiceStatesChanged (sampleHost (.id 5) none none none) ⟨rosterA, .id 5, none, none⟩ =
      .error .typeError := by
  rfl

/-! ## Replay of the emitted events (C2) -/

theorem replay_append (a b : List NotifyCall) (p : Finset UserId) :
    replay (a ++ b) p = replay b (replay a p) := by
  simp [replay, List.foldl_append]

theorem replay_joins (l : List UserId) (ch : ChannelRef) (p : Finset UserId) :
    replay (l.map fun uid => NotifyCall.mk "join" uid ch) p = p ∪ l.toFinset := by
  induction l generalizing p with
  | nil => simp [replay]
  | cons u l ih =>
    have hstep : replay ((u :: l).map fun uid => NotifyCall.mk "join" uid ch) p =
        replay (l.map fun uid => NotifyCall.mk "join" uid ch) (insert u p) := by
      simp [replay, replayOne]
    rw [hstep, ih]
    ext x
    simp only [Finset.mem_union, Finset.mem_insert, List.toFinset_cons]
    tauto

theorem replay_leaves (l : List UserId) (ch : ChannelRef) (p : Finset UserId) :
    replay (l.map fun uid => NotifyCall.mk "leave" uid ch) p = p \ l.toFinset := by
  induction l generalizing p with
  | nil => simp [replay]
  | cons u l ih =>
    have hstep : replay ((u :: l).map fun uid => NotifyCall.mk "leave" uid ch) p =
        replay (l.map fun uid => NotifyCall.mk "leave" uid ch) (p.erase u) := by
      simp [replay, replayOne]
    rw [hstep, ih]
    ext x
    simp only [Finset.mem_sdiff, Finset.mem_erase, List.toFinset_cons, Finset.mem_insert]
    tauto

/-- Replaying the calls of one same-channel step against the old
participant set gives the new participant set. -/
theorem replay_step (selfId : UserId) (ch : ChannelRef) (prev current : Roster) :
    replay
      (((current.keys.filter fun uid => !prev.has uid && uid != selfId).map
          fun uid => NotifyCall.mk "join" uid ch) ++
        ((prev.keys.filter fun uid => !current.has uid && uid != selfId).map
          fun uid => NotifyCall.mk "leave" uid ch))
      (participants prev selfId) = participants current selfId := by
  rw [replay_append, replay_joins, replay_leaves]
  ext x
  have hp := Roster.has_iff prev x
  have hc := Roster.has_iff current x
  simp only [participants, Finset.mem_sdiff, Finset.mem_union, Finset.mem_erase,
    List.mem_toFinset, List.mem_filter, Bool.and_eq_true, Bool.not_eq_true', bne_iff_ne, ne_eq]
  by_cases h1 : x ∈ prev.keys <;> by_cases h2 : x ∈ current.keys <;>
    by_cases h3 : x = selfId <;> simp_all

/-- One same-channel invocation returns normally, makes the snapshot the
reported roster, and its calls replay the old participant set into the new. -/
theorem same_step_replay (h : Host) (st : Tracking) (c : ChannelId) (current : Roster)
    (hsel : h.getVoiceChannelId = .id c) (htr : st.prevSelectedChannelId = .id c)
    (hcur : h.getVoiceStatesForChannel c = some current) :
    ∃ calls, onVoiceStatesChanged h st = .ok ({ st with prevVoiceStates := current }, calls) ∧
      replay calls (participants st.prevVoiceStates h.currentUserId) =
        participants current h.currentUserId :=
  ⟨_, onVoiceStatesChanged_same h st c current hsel htr hcur, replay_step _ _ _ _⟩

/-- C2. Let the tracked channel be the constant channel `c`, the snapshot be
`S0`, and let the host report, at the successive invocations of
`onVoiceStatesChanged`, the local user `selfId`, the selected channel `c` and
the rosters `rs = S1, .., Sn`. Then all invocations return normally, the
snapshot ends as `Sn`, and replaying the emitted events in order against the
participants of `S0` minus the local user gives exactly the participants of
`Sn` minus the local user. Consequently a single invocation that observes
`Sn` directly from `S0` has the same net result. -/
theorem replay_reconstructs (selfId : UserId) (c : ChannelId) (st0 : Tracking)
    (hs : List Host) (rs : List Roster) (htr : st0.prevSelectedChannelId = .id c)
    (hobs : List.Forall₂ (fun h r => h.currentUserId = selfId ∧
      h.getVoiceChannelId = .id c ∧ h.getVoiceStatesForChannel c = some r) hs rs) :
    ∃ calls,
      onVoiceStatesChangedSeq hs st0 =
        .ok ({ st0 with prevVoiceStates := rs.getLastD st0.prevVoiceStates }, calls) ∧
      replay calls (participants st0.prevVoiceStates selfId) =
        participants (rs.getLastD st0.prevVoiceStates) selfId ∧
      ∀ h : Host, h.currentUserId = selfId → h.getVoiceChannelId = .id c →
        h.getVoiceStatesForChannel c = some (rs.getLastD st0.prevVoiceStates) →
        ∃ calls1,
          onVoiceStatesChanged h st0 =
            .ok ({ st0 with prevVoiceStates := rs.getLastD st0.prevVoiceStates }, calls1) ∧
          replay calls1 (participants st0.prevVoiceStates selfId) =
            replay calls (participants st0.prevVoiceStates selfId) := by
  have hmain : ∃ calls,
      onVoiceStatesChangedSeq hs st0 =
        .ok ({ st0 with prevVoiceStates := rs.getLastD st0.prevVoiceStates }, calls) ∧
      replay calls (participants st0.prevVoiceStates selfId) =
        participants (rs.getLastD st0.prevVoiceStates) selfId := by
    induction hobs generalizing st0 with
    | nil => exact ⟨[], rfl, rfl⟩
    | @cons h r hs rs hhr _ ih =>
      obtain ⟨hself, hsel, hcur⟩ := hhr
      obtain ⟨calls1, hstep, hrep1⟩ := same_step_replay h st0 c r hsel htr hcur
      obtain ⟨calls2, hrun2, hrep2⟩ := ih { st0 with prevVoiceStates := r } htr
      refine ⟨calls1 ++ calls2, ?_, ?_⟩
      · simp only [onVoiceStatesChangedSeq, hstep, hrun2, List.getLastD_cons]
      · rw [replay_append, ← hself, hrep1, List.getLastD_cons, hself]
        exact hrep2
  obtain ⟨calls, hrun, hrep⟩ := hmain
  refine ⟨calls, hrun, hrep, ?_⟩
  intro h hself hsel hcur
  obtain ⟨calls1, hstep, hrep1⟩ := same_step_replay h st0 c _ hsel htr hcur
  exact ⟨calls1, hstep, by rw [← hself, hrep1, hself, hrep]⟩

/-- Witness of C2: on channel 5, from snapshot A the host reports roster B
and then roster C. -/
theorem replay_reconstructs_witness :
    ∃ calls,
      onVoiceStatesChangedSeq
          [sampleHost (.id 5) (some rosterB) none none, sampleHost (.id 5) (some rosterC) none none]
          ⟨rosterA, .id 5, none, none⟩ =
        .ok (⟨rosterC, .id 5, none, none⟩, calls) ∧
      replay calls (participants rosterA 1) = participants rosterC 1 ∧
      ∀ h : Host, h.currentUserId = 1 → h.getVoiceChannelId = .id 5 →
        h.getVoiceStatesForChannel 5 = some rosterC →
        ∃ calls1,
          onVoiceStatesChanged h ⟨rosterA, .id 5, none, none⟩ =
            .ok (⟨rosterC, .id 5, none, none⟩, calls1) ∧
          replay calls1 (participants rosterA 1) = replay calls (participants rosterA 1) :=
  replay_reconstructs 1 5 ⟨rosterA, .id 5, none, none⟩
    [sampleHost (.id 5) (some rosterB) none none, sampleHost (.id 5) (some rosterC) none none]
    [rosterB, rosterC] rfl
    (List.Forall₂.cons ⟨rfl, rfl, rfl⟩ (List.Forall₂.cons ⟨rfl, rfl, rfl⟩ List.Forall₂.nil))

/-! ## Self mute and deafen (C4, C5) -/

/-- C4, counterexample. The host reports "not muted" when `start()` runs and
"muted" at the first invocation of `onMediaEngineChanged` after it (here
after a `stop()`): that first invocation calls `notify("mute", ..)`. -/
theorem start_then_mute_emits :
    (onMediaEngineChanged (sampleHost (.id 5) none (some true) (some false))
        (start (sampleHost (.id 5) none (some false) (some false))
          (stop Tracking.initial)).tracking).2 = [⟨"mute", 1, .id 5⟩] ∧
    (onMediaEngineChanged (sampleHost (.id 5) none (some true) (some false))
        (start (sampleHost (.id 5) none (some false) (some false))
          (stop Tracking.initial)).tracking).2 ≠ [] := by
  constructor
  · rfl
  · decide

/-- C4, amended. `start()` stores the mute and deafen values the host
reports as the previous values. Hence the first invocation of
`onMediaEngineChanged` after `start()` (also a `start()` that follows a
`stop()`) emits nothing for a boolean whose value equals the one reported
when `start()` ran, and the one transition event for a boolean whose value
differs; with both values unchanged it calls `notify` zero times. -/
theorem first_invocation_after_start (h0 h1 : Host) (st : Tracking) :
    (onMediaEngineChanged h1 (start h0 st).tracking).2 =
      (if h1.isSelfMute.getD false = h0.isSelfMute.getD false then []
        else [⟨if h1.isSelfMute.getD false then "mute" else "unmute",
          h1.currentUserId, h1.getVoiceChannelId⟩]) ++
      (if h1.isSelfDeaf.getD false = h0.isSelfDeaf.getD false then []
        else [⟨if h1.isSelfDeaf.getD false then "deafen" else "undeafen",
          h1.currentUserId, h1.getVoiceChannelId⟩]) ∧
    (onMediaEngineChanged h1 (start h0 (stop st)).tracking).2 =
      (onMediaEngineChanged h1 (start h0 st).tracking).2 ∧
    (onMediaEngineChanged h0 (start h0 st).tracking).2 = [] := by
  refine ⟨?_, rfl, ?_⟩
  · simp only [onMediaEngineChanged, start]
    split_ifs <;> simp_all
  · simp [onMediaEngineChanged, start]

/-- C5. In every invocation of `onMediaEngineChanged` with a known previous
mute value `b`: when the current mute value differs from `b`, the calls of
type `mute` or `unmute` are exactly one, `mute` when the value became true
and `unmute` when it became false, with the local user id and the selected
voice channel id; when it equals `b` there is none. The same holds for the
deafen value with `deafen` and `undeafen`, whatever the other boolean does.
After every invocation both stored previous values are the current values. -/
theorem media_flip_emits_once (h : Host) (st : Tracking) (b : Bool) :
    ((onMediaEngineChanged h { st with prevSelfMute := some b }).2.filter
        fun e => e.type = "mute" ∨ e.type = "unmute") =
      (if h.isSelfMute.getD false = b then []
        else [⟨if h.isSelfMute.getD false then "mute" else "unmute",
          h.currentUserId, h.getVoiceChannelId⟩]) ∧
    ((onMediaEngineChanged h { st with prevSelfDeaf := some b }).2.filter
        fun e => e.type = "deafen" ∨ e.type = "undeafen") =
      (if h.isSelfDeaf.getD false = b then []
        else [⟨if h.isSelfDeaf.getD false then "deafen" else "undeafen",
          h.currentUserId, h.getVoiceChannelId⟩]) ∧
    (onMediaEngineChanged h st).1.prevSelfMute = some (h.isSelfMute.getD false) ∧
    (onMediaEngineChanged h st).1.prevSelfDeaf = some (h.isSelfDeaf.getD false) := by
  refine ⟨?_, ?_, rfl, rfl⟩
  · simp only [onMediaEngineChanged]
    split_ifs <;> simp_all
  · simp only [onMediaEngineChanged]
    split_ifs <;> simp_all

/-! ## The notifier (C6, C8) -/

/-- C6, the code at the failing input. With the join template
`$username joined $channel`, `notify` shows `Annname joined General`: the
first `replaceAll` has already replaced the `$user` at the start of
`$username` by the display name, so the username `ann01` never appears. -/
theorem username_token_not_substituted :
    notify { Settings.defaults with notifs := [("join", ⟨true, "$username joined $channel"⟩)] }
      annHost "join" 10 (.id 5) = [⟨"Annname joined General", "info", 3000⟩] := by
  decide

/-- C8. `notify(type, userId, channelId)` shows exactly one toast when the
rule for `type` exists and is enabled, and not (`filterBots` is set and the
actor is a bot), and not (`filterStages` is set and the channel is a stage
voice channel); otherwise it shows none. In particular a rule that is not
enabled gives no toast whatever the filters are, and with `filterBots` set a
bot actor gives no toast. -/
theorem notify_shows_toast_iff (s : Settings) (h : Host) (type : String)
    (userId : UserId) (channelId : ChannelRef) :
    ((notify s h type userId channelId).length = 1 ↔
      ((∃ n, s.notifs.lookup type = some n ∧ n.enabled = true) ∧
        ¬ (s.filterBots = true ∧ ∃ u, h.getUser userId = some u ∧ u.bot = true) ∧
        ¬ (s.filterStages = true ∧
            ∃ ch, h.getChannel channelId = some ch ∧ ch.isGuildStageVoice = true))) ∧
    ((notify s h type userId channelId).length = 1 ∨ notify s h type userId channelId = []) ∧
    (∀ n, s.notifs.lookup type = some n → n.enabled = false →
      notify s h type userId channelId = []) ∧
    (∀ u, s.filterBots = true → h.getUser userId = some u → u.bot = true →
      notify s h type userId channelId = []) := by
  unfold notify
  refine ⟨?_, ?_, ?_, ?_⟩
  · rcases hn : s.notifs.lookup type with _ | n
    · simp
    · rcases hu : h.getUser userId with _ | u <;>
        rcases hc : h.getChannel channelId with _ | ch <;>
        cases he : n.enabled <;> cases hb : s.filterBots <;> cases hs : s.filterStages <;>
        (simp only [toast, he, hb, hs, hu, hc]
         split_ifs <;> simp_all
         all_goals (cases hbot : u.bot <;> simp_all))
  · rcases hn : s.notifs.lookup type with _ | n
    · simp
    · by_cases he : n.enabled = true
      · simp only [he, Bool.not_true, Bool.false_eq_true, if_false]
        split_ifs <;> simp [toast]
      · simp [he]
  · intro n hn he
    simp [hn, he]
  · intro u hb hu hbot
    rcases hn : s.notifs.lookup type with _ | n
    · simp
    · simp [hb, hu, hbot]

/-! ## The name filter (C7) -/

theorem char_toNat_lt (c : Char) : c.toNat < 0x110000 := by
  have hv := c.valid
  simp only [UInt32.isValidChar, Nat.isValidChar] at hv
  show c.val.toNat < 0x110000
  omega

theorem kept_not_surrogate (u : Nat) (hk : nameUnitKept u = true) :
    isHighSurrogate u = false ∧ isLowSurrogate u = false := by
  simp only [nameUnitKept, Bool.or_eq_true, Bool.and_eq_true, decide_eq_true_eq] at hk
  simp only [isHighSurrogate, isLowSurrogate, Bool.and_eq_false_iff, decide_eq_false_iff_not]
  omega

theorem surrogate_not_kept (u : Nat) (hu : 0xD800 ≤ u) : nameUnitKept u = false := by
  simp only [nameUnitKept, Bool.or_eq_false_iff, Bool.and_eq_false_iff, decide_eq_false_iff_not]
  omega

/-- The filtered code units of one character, decoded, are what
`filterChar` gives for it. -/
theorem fromUTF16_filter_cons (c : Char) (l : List Char) :
    fromUTF16From none
        ((toUTF16 ⟨c :: l⟩).map fun u => if nameUnitKept u then u else 0x20) =
      filterChar c ++
        fromUTF16From none ((toUTF16 ⟨l⟩).map fun u => if nameUnitKept u then u else 0x20) := by
  simp only [toUTF16, List.flatMap_cons, List.map_append, filterChar]
  by_cases hc : c.toNat < 0x10000
  · by_cases hk : nameUnitKept c.toNat = true
    · obtain ⟨hh, hl⟩ := kept_not_surrogate _ hk
      simp [hc, hk, fromUTF16From, hh, hl, Char.ofNat_toNat]
    · have h20 : Char.ofNat 0x20 = ' ' := rfl
      simp [hc, hk, fromUTF16From, isHighSurrogate, isLowSurrogate, h20]
  · have hlt := char_toNat_lt c
    have h1 : nameUnitKept (0xD800 + (c.toNat - 0x10000) / 0x400) = false :=
      surrogate_not_kept _ (by omega)
    have h2 : nameUnitKept (0xDC00 + (c.toNat - 0x10000) % 0x400) = false :=
      surrogate_not_kept _ (by omega)
    have h20 : Char.ofNat 0x20 = ' ' := rfl
    simp [hc, h1, h2, fromUTF16From, isHighSurrogate, isLowSurrogate, h20]

theorem fromUTF16_filter (l : List Char) :
    fromUTF16 ((toUTF16 ⟨l⟩).map fun u => if nameUnitKept u then u else 0x20) =
      l.flatMap filterChar := by
  induction l with
  | nil => rfl
  | cons c l ih =>
    rw [fromUTF16, fromUTF16_filter_cons, List.flatMap_cons]
    rw [fromUTF16] at ih
    rw [ih]

/-- C7, counterexample. With `filterNames` enabled the name `Ann_🔥123`
becomes `Ann`, three spaces, `123`: one space for the underscore and two for
the emoji, which is two UTF-16 code units. It is not `Ann 123`, and the
emoji alone does not become a single space. -/
theorem processName_emoji_two_spaces :
    processName true "Ann_🔥123" = "Ann   123" ∧
    processName true "Ann_🔥123" ≠ "Ann 123" ∧
    processName true "🔥" ≠ " " := by
  decide

/-- C7, amended. With `filterNames` enabled `processName` replaces each
UTF-16 code unit that is not an ASCII letter or digit and not in the
Hiragana/Katakana, CJK Unified Ideographs or Hangul ranges by one space and
keeps every other one unchanged and in place: a kept character stays, any
other character up to U+FFFF becomes one space, and a character above U+FFFF
(an emoji) becomes two spaces. For `Ann_🔥123` the result is `Ann`, three
spaces, `123`. With `filterNames` disabled the name is returned unchanged. -/
theorem processName_filters_code_units (n : String) :
    processName true n = String.mk (n.data.flatMap filterChar) ∧
    processName false n = n ∧
    processName true "Ann_🔥123" = "Ann   123" := by
  refine ⟨?_, rfl, by decide⟩
  simp only [processName, if_true]
  rw [show n = ⟨n.data⟩ from rfl, fromUTF16_filter]

/-! ## Settings merge (C10) -/

theorem Obj.get_cons (k1 : String) (v1 : JSON) (rest : Obj) (k : String) :
    Obj.get ((k1, v1) :: rest) k = if k = k1 then some v1 else Obj.get rest k := by
  simp only [Obj.get, List.lookup_cons]
  by_cases hk : k = k1
  · simp [hk]
  · have hb : (k == k1) = false := by simpa using hk
    simp [hk, hb]

theorem Obj.get_set (o : Obj) (k : String) (v : JSON) (k2 : String) :
    Obj.get (Obj.set o k v) k2 = if k2 = k then some v else Obj.get o k2 := by
  induction o with
  | nil =>
    simp only [Obj.set, Obj.get_cons]
  | cons kv rest ih =>
    obtain ⟨k1, v1⟩ := kv
    simp only [Obj.set]
    by_cases h1 : k1 = k
    · subst h1
      simp only [if_true, Obj.get_cons]
      by_cases h2 : k2 = k1 <;> simp [h2]
    · simp only [h1, if_false, Obj.get_cons, ih]
      by_cases h2 : k2 = k1
      · have h3 : k2 ≠ k := fun h => h1 (h2.symm.trans h)
        simp [h2, h3, h1]
      · simp [h2]

theorem Obj.get_eq_none_of_not_mem (o : Obj) (k : String) (hk : k ∉ o.map Prod.fst) :
    Obj.get o k = none := by
  simp only [Obj.get, List.lookup_eq_none_iff, bne_iff_ne, ne_eq]
  intro p hp heq
  exact hk (List.mem_map.mpr ⟨p, hp, heq.symm⟩)

/-- A spread of an object with distinct keys over a target: a key of the
source takes the source's value, every other key keeps the target's. -/
theorem Obj.get_assign (target source : Obj) (hs : (source.map Prod.fst).Nodup) (k : String) :
    Obj.get (Obj.assign target source) k =
      match Obj.get source k with
      | some v => some v
      | none => Obj.get target k := by
  induction source generalizing target with
  | nil => rfl
  | cons kv rest ih =>
    obtain ⟨k1, v1⟩ := kv
    simp only [List.map_cons, List.nodup_cons] at hs
    have hstep : Obj.assign target ((k1, v1) :: rest) = Obj.assign (Obj.set target k1 v1) rest := rfl
    rw [hstep, ih _ hs.2, Obj.get_cons, Obj.get_set]
    by_cases hk : k = k1
    · subst hk
      simp [Obj.get_eq_none_of_not_mem rest k hs.1]
    · simp [hk]

theorem Obj.assign_nil (o : Obj) : Obj.assign o [] = o := rfl

/-- The properties of the default `toast` object. -/
theorem DEFAULTS_toast :
    JSON.ownPropsOpt (Obj.get DEFAULTS "toast") = [("type", .str "info"), ("timeout", .num 3000)] :=
  rfl

theorem DEFAULTS_nodup : (DEFAULTS.map Prod.fst).Nodup := by decide

/-- C10. Let the persisted blob be an object with the properties `saved`
(each key once, also inside a saved `toast` or `notifs`). After
`SettingsStore.load()` every top-level key other than `toast` and `notifs`
carries the saved value when the blob has the key and its default when it
has not; `toast` and `notifs` are objects merged key by key, a key taking
the saved value when the saved sub-object has it and the default otherwise.
For a blob without a `toast` key, `current.toast` is the default toast
config (type `info`, timeout 3000), the other saved fields keeping their
saved values as just said. An absent blob gives exactly the defaults. -/
theorem load_merges_over_defaults (saved : Obj) (hk : (saved.map Prod.fst).Nodup)
    (ht : ((JSON.orEmpty (Obj.get saved "toast")).ownProps.map Prod.fst).Nodup)
    (hn : ((JSON.orEmpty (Obj.get saved "notifs")).ownProps.map Prod.fst).Nodup) :
    (∀ k, k ≠ "toast" → k ≠ "notifs" →
      Obj.get (SettingsStore.load DEFAULTS (some (.obj saved))) k =
        match Obj.get saved k with
        | some v => some v
        | none => Obj.get DEFAULTS k) ∧
    (∃ t, Obj.get (SettingsStore.load DEFAULTS (some (.obj saved))) "toast" = some (.obj t) ∧
      ∀ k, Obj.get t k =
        match Obj.get (JSON.orEmpty (Obj.get saved "toast")).ownProps k with
        | some v => some v
        | none => Obj.get (JSON.ownPropsOpt (Obj.get DEFAULTS "toast")) k) ∧
    (∃ t, Obj.get (SettingsStore.load DEFAULTS (some (.obj saved))) "notifs" = some (.obj t) ∧
      ∀ k, Obj.get t k =
        match Obj.get (JSON.orEmpty (Obj.get saved "notifs")).ownProps k with
        | some v => some v
        | none => Obj.get (JSON.ownPropsOpt (Obj.get DEFAULTS "notifs")) k) ∧
    (Obj.get saved "toast" = none →
      Obj.get (SettingsStore.load DEFAULTS (some (.obj saved))) "toast" =
        some (.obj [("type", .str "info"), ("timeout", .num 3000)])) ∧
    SettingsStore.load DEFAULTS none = DEFAULTS := by
  have hload : SettingsStore.load DEFAULTS (some (.obj saved)) =
      Obj.set (Obj.set (Obj.assign (Obj.assign [] DEFAULTS) saved) "toast"
        (.obj (Obj.assign (Obj.assign [] (JSON.ownPropsOpt (Obj.get DEFAULTS "toast")))
          (JSON.orEmpty (Obj.get saved "toast")).ownProps))) "notifs"
        (.obj (Obj.assign (Obj.assign [] (JSON.ownPropsOpt (Obj.get DEFAULTS "notifs")))
          (JSON.orEmpty (Obj.get saved "notifs")).ownProps)) := rfl
  have hdef : Obj.assign [] DEFAULTS = DEFAULTS := rfl
  have hdt : Obj.assign [] (JSON.ownPropsOpt (Obj.get DEFAULTS "toast")) =
      JSON.ownPropsOpt (Obj.get DEFAULTS "toast") := rfl
  have hdn : Obj.assign [] (JSON.ownPropsOpt (Obj.get DEFAULTS "notifs")) =
      JSON.ownPropsOpt (Obj.get DEFAULTS "notifs") := rfl
  refine ⟨?_, ?_, ?_, ?_, rfl⟩
  · intro k h1 h2
    rw [hload, Obj.get_set, if_neg h2, Obj.get_set, if_neg h1, Obj.get_assign _ _ hk, hdef]
  · refine ⟨Obj.assign (Obj.assign [] (JSON.ownPropsOpt (Obj.get DEFAULTS "toast")))
      (JSON.orEmpty (Obj.get saved "toast")).ownProps, ?_, fun k => ?_⟩
    · rw [hload, Obj.get_set, if_neg (by decide), Obj.get_set, if_pos rfl]
    · rw [Obj.get_assign _ _ ht, hdt]
  · refine ⟨Obj.assign (Obj.assign [] (JSON.ownPropsOpt (Obj.get DEFAULTS "notifs")))
      (JSON.orEmpty (Obj.get saved "notifs")).ownProps, ?_, fun k => ?_⟩
    · rw [hload, Obj.get_set, if_pos rfl]
    · rw [Obj.get_assign _ _ hn, hdn]
  · intro hnone
    rw [hload, Obj.get_set, if_neg (by decide), Obj.get_set, if_pos rfl, hnone]
    rfl

/-- Witness of C10: a blob that saves `filterBots`, an unknown key and
a `notifs` entry, and has no `toast` key. -/
theorem load_merges_over_defaults_witness :
    (∀ k, k ≠ "toast" → k ≠ "notifs" →
      Obj.get (SettingsStore.load DEFAULTS (some (.obj
        [("filterBots", .bool true), ("extra", .num 1),
          ("notifs", .obj [("join", .obj [("enabled", .bool false)])])]))) k =
        match Obj.get [("filterBots", .bool true), ("extra", .num 1),
          ("notifs", .obj [("join", .obj [("enabled", .bool false)])])] k with
        | some v => some v
        | none => Obj.get DEFAULTS k) ∧
    Obj.get (SettingsStore.load DEFAULTS (some (.obj
        [("filterBots", .bool true), ("extra", .num 1),
          ("notifs", .obj [("join", .obj [("enabled", .bool false)])])]))) "toast" =
      some (.obj [("type", .str "info"), ("timeout", .num 3000)]) :=
  have hall := load_merges_over_defaults
    [("filterBots", .bool true), ("extra", .num 1),
      ("notifs", .obj [("join", .obj [("enabled", .bool false)])])]
    (by decide) (by decide) (by decide)
  ⟨hall.1, hall.2.2.2.1 rfl⟩

end VoiceToast
